import Mathlib

/-!
Shallow embedding of the authentication/session core of `go-backend-api`
(JWT token codec, refresh-token store, password policy, user service),
with theorems checking the claims of the specification against it.

Modelling conventions:
* `time.Time` values are Unix seconds (`Int`); `time.Duration` values are
  seconds.  `a.Before(b)` is `a < b`.
* UUIDs are their string renderings; `uuid.Parse` accepts exactly the
  canonical 8-4-4-4-12 hex format and returns the string itself
  (`google/uuid`: `Parse (u.String()) = u`).
* HMAC signing is modelled symbolically (perfect-MAC assumption): a
  signature is the pair (key, signed claims); verification with key `k`
  succeeds exactly when the signature was produced with `k` over these
  claims.
* bcrypt is modelled as a deterministic injective encoding;
  `CompareHashAndPassword h pw` succeeds iff `h = GenerateFromPassword pw`.
  (Real bcrypt is salted; the claims under check only need the
  matches/does-not-match distinction.)
* Database-handle failures (connection errors) are not modelled; SQL
  constraint violations are: `refresh_tokens.token_id` is `UNIQUE`
  (`internal/database/migrations_v2.sql`), so an `INSERT` with a duplicate
  `token_id` fails and rolls back its transaction.
-/

namespace GoBackend

/-! ## JSON claim values and JWT tokens (`internal/pkg/auth/jwt.go`, src/unnamed/part_007) -/

/-- A JSON value appearing in a `jwt.MapClaims` map: the generated tokens
only ever store strings and integer timestamps, and the validator only
distinguishes "is a string", "is a number", "is something else absent". -/
inductive JVal where
  | jstr : String → JVal
  | jnum : Int → JVal
deriving DecidableEq, Repr

/-- The claim set written by `generateAccessToken` / `generateRefreshToken`
and read back by `validateToken`.  Fields are optional because an
arbitrary presented token may omit any of them. -/
structure MapClaims where
  user_id : Option JVal := none
  username : Option JVal := none
  token_id : Option JVal := none
  typ : Option JVal := none
  iss : Option JVal := none
  aud : Option JVal := none
  exp : Option JVal := none
  iat : Option JVal := none
  nbf : Option JVal := none
deriving DecidableEq, Repr

/-- A signed JWT, with the HMAC signature modelled symbolically as the
pair (signing key, signed claim set). -/
structure SignedToken where
  alg : String
  claims : MapClaims
  sig : String × MapClaims
deriving DecidableEq, Repr

/-- Symbolic `token.SignedString(key)` for `jwt.SigningMethodHS256`. -/
def signHS256 (key : String) (claims : MapClaims) : SignedToken :=
  { alg := "HS256", claims := claims, sig := (key, claims) }

/-- The keyfunc in `validateToken` accepts any `*jwt.SigningMethodHMAC`. -/
def isHMACAlg (alg : String) : Bool :=
  alg == "HS256" || alg == "HS384" || alg == "HS512"

/-- Extract a claim value as a Go string (the `claims[k].(string)` type
assertion: fails when the claim is absent or not a string). -/
def getStr : Option JVal → Option String
  | some (.jstr s) => some s
  | _ => none

/-- Hex-digit test used by the UUID format check. -/
def isHexDigit (c : Char) : Bool :=
  ('0' ≤ c && c ≤ '9') || ('a' ≤ c && c ≤ 'f') || ('A' ≤ c && c ≤ 'F')

/-- Canonical UUID string format 8-4-4-4-12 accepted by `uuid.Parse`. -/
def isUUIDString (s : String) : Bool :=
  let cs := s.data
  cs.length == 36 &&
    (List.range 36).all (fun i =>
      if i == 8 || i == 13 || i == 18 || i == 23 then
        cs.getD i ' ' == '-'
      else
        isHexDigit (cs.getD i ' '))

/-- Model of `uuid.Parse`: accepts exactly well-formed UUID strings and
returns the identifier itself (whose `String()` rendering is `s`). -/
def uuidParse (s : String) : Option String :=
  if isUUIDString s then some s else none

/-- The claims struct returned by the codec (`models.TokenClaims`,
src/unnamed/part_013).  `userID` holds the string rendering of the UUID. -/
structure TokenClaims where
  userID : String
  username : String
  tokenID : String
  typ : String
deriving DecidableEq, Repr

/-- `models.User` (src/unnamed/part_013 lines 10-19). `id` is the string
rendering of the UUID; timestamps are Unix seconds. -/
structure User where
  id : String
  username : String
  email : String
  password : String
  isActive : Bool
  lastLogin : Option Int := none
  createdAt : Int := 0
  updatedAt : Int := 0
deriving DecidableEq, Repr

/-- `auth.JWTManager` configuration (src/unnamed/part_007 lines 17-24). -/
structure JWTManager where
  accessSecretKey : String
  refreshSecretKey : String
  accessDuration : Int
  refreshDuration : Int
  issuer : String
  audience : String
deriving DecidableEq, Repr

/-- `auth.TokenPair` (src/unnamed/part_007 lines 27-32). -/
structure TokenPair where
  accessToken : SignedToken
  refreshToken : SignedToken
  tokenType : String
  expiresIn : Int
deriving DecidableEq, Repr

/-- `JWTManager.generateAccessToken` (src/unnamed/part_007 lines 75-96):
claim set written at time `now` for the given user and token id. -/
def generateAccessToken (j : JWTManager) (user : User) (tokenID : String) (now : Int) : SignedToken :=
  signHS256 j.accessSecretKey
    { user_id := some (.jstr user.id)
      username := some (.jstr user.username)
      token_id := some (.jstr tokenID)
      typ := some (.jstr "access")
      iss := some (.jstr j.issuer)
      aud := some (.jstr j.audience)
      exp := some (.jnum (now + j.accessDuration))
      iat := some (.jnum now)
      nbf := some (.jnum now) }

/-- `JWTManager.generateRefreshToken` (src/unnamed/part_007 lines 99-120). -/
def generateRefreshToken (j : JWTManager) (user : User) (tokenID : String) (now : Int) : SignedToken :=
  signHS256 j.refreshSecretKey
    { user_id := some (.jstr user.id)
      username := some (.jstr user.username)
      token_id := some (.jstr tokenID)
      typ := some (.jstr "refresh")
      iss := some (.jstr j.issuer)
      aud := some (.jstr j.audience)
      exp := some (.jnum (now + j.refreshDuration))
      iat := some (.jnum now)
      nbf := some (.jnum now) }

/-- `JWTManager.GenerateTokenPair` (src/unnamed/part_007 lines 47-72).
The randomly generated token id is passed in as `tokenID` (the randomness
oracle); both tokens share it. -/
def generateTokenPair (j : JWTManager) (user : User) (tokenID : String) (now : Int) : TokenPair :=
  { accessToken := generateAccessToken j user tokenID now
    refreshToken := generateRefreshToken j user tokenID now
    tokenType := "Bearer"
    expiresIn := j.accessDuration }

/-- Registered-claim check on `exp` done inside `jwt.Parse` (jwt/v5
validator, leeway 0, not required): absent passes, a numeric value must be
strictly after `now`, a non-numeric value is a type error. -/
def expClaimValid (v : Option JVal) (now : Int) : Bool :=
  match v with
  | none => true
  | some (.jnum e) => now < e
  | some (.jstr _) => false

/-- Registered-claim check on `nbf` inside `jwt.Parse`: absent passes, a
numeric value must not be after `now`. -/
def nbfClaimValid (v : Option JVal) (now : Int) : Bool :=
  match v with
  | none => true
  | some (.jnum b) => b ≤ now
  | some (.jstr _) => false

/-- `JWTManager.validateToken` (src/unnamed/part_007 lines 133-200):
parse and verify the signature, then the registered `exp`/`nbf` claims,
then `type`, issuer, audience, and the typed extraction of `user_id`
(must parse as a UUID), `username` and `token_id`, in source order.
Failure at any step returns an error and no claims. -/
def validateToken (j : JWTManager) (tok : SignedToken) (secretKey : String)
    (expectedType : String) (now : Int) : Except String TokenClaims :=
  if ¬ isHMACAlg tok.alg then .error "failed to parse token: unexpected signing method"
  else if tok.sig ≠ (secretKey, tok.claims) then .error "failed to parse token: signature is invalid"
  else if ¬ expClaimValid tok.claims.exp now then .error "failed to parse token: token is expired"
  else if ¬ nbfClaimValid tok.claims.nbf now then .error "failed to parse token: token is not valid yet"
  else match getStr tok.claims.typ with
    | none => .error "invalid token type"
    | some t =>
      if t ≠ expectedType then .error "invalid token type"
      else if getStr tok.claims.iss ≠ some j.issuer then .error "invalid issuer"
      else if getStr tok.claims.aud ≠ some j.audience then .error "invalid audience"
      else match getStr tok.claims.user_id with
        | none => .error "invalid user_id in token"
        | some uidStr =>
          match uuidParse uidStr with
          | none => .error "invalid user_id format"
          | some uid =>
            match getStr tok.claims.username with
            | none => .error "invalid username in token"
            | some uname =>
              match getStr tok.claims.token_id with
              | none => .error "invalid token_id in token"
              | some tid => .ok { userID := uid, username := uname, tokenID := tid, typ := t }

/-- `JWTManager.ValidateAccessToken` (src/unnamed/part_007 lines 123-125). -/
def validateAccessToken (j : JWTManager) (tok : SignedToken) (now : Int) : Except String TokenClaims :=
  validateToken j tok j.accessSecretKey "access" now

/-- `JWTManager.ValidateRefreshToken` (src/unnamed/part_007 lines 128-130). -/
def validateRefreshToken (j : JWTManager) (tok : SignedToken) (now : Int) : Except String TokenClaims :=
  validateToken j tok j.refreshSecretKey "refresh" now

/-- Whether an `Except` result is an error. -/
def isErr : Except ε α → Bool
  | .error _ => true
  | .ok _ => false

instance {ε α : Type} [DecidableEq ε] [DecidableEq α] : DecidableEq (Except ε α) := fun x y =>
  match x, y with
  | .ok a, .ok b =>
    if h : a = b then isTrue (by rw [h]) else isFalse (by intro hc; cases hc; exact h rfl)
  | .error a, .error b =>
    if h : a = b then isTrue (by rw [h]) else isFalse (by intro hc; cases hc; exact h rfl)
  | .ok _, .error _ => isFalse (by intro hc; cases hc)
  | .error _, .ok _ => isFalse (by intro hc; cases hc)

/-! ## Error taxonomy (`internal/pkg/errors/app_error.go`) -/

/-- `errors.AppError` (app_error.go lines 9-14); the wrapped Go `error` is
not modelled (it never takes part in equality of the predefined values). -/
structure AppError where
  code : Nat
  message : String
  details : String := ""
deriving DecidableEq, Repr

/-- `errors.NewErrorWithCode(401, "Invalid refresh token")`: the single
generic error returned for every invalid-refresh-token cause. -/
def invalidRefreshTokenErr : AppError := { code := 401, message := "Invalid refresh token" }

/-- `errors.ErrUnauthorized` (app_error.go line 51). -/
def errUnauthorized : AppError := { code := 401, message := "Unauthorized" }

/-- `errors.ErrUserNotFound` (app_error.go line 62). -/
def errUserNotFound : AppError := { code := 404, message := "User not found" }

/-- `errors.NewErrorWithCode(403, "Account is deactivated")` returned by
`AuthenticateUser` and `RefreshToken` for an inactive user. -/
def accountDeactivatedErr : AppError := { code := 403, message := "Account is deactivated" }

/-- `errors.WrapErrorWithCode(err, 400, "Validation failed")`. -/
def validationFailedErr : AppError := { code := 400, message := "Validation failed" }

/-- `errors.ErrUserExists` (app_error.go line 67). -/
def errUserExists : AppError := { code := 409, message := "User already exists" }

/-- `errors.NewAppErrorWithDetails(409, "Username already taken", ...)`. -/
def usernameTakenErr : AppError :=
  { code := 409, message := "Username already taken", details := "Username must be unique" }

/-- `errors.WrapError` of the unique-constraint violation inside
`refreshTokenRepository.Create` ("Failed to create refresh token"). -/
def createTokenStoreErr : AppError := { code := 500, message := "Failed to create refresh token" }

/-- `errors.WrapError` of the unique-constraint violation inside the
`RotateToken` transaction ("Failed to create new refresh token"). -/
def rotateInsertErr : AppError := { code := 500, message := "Failed to create new refresh token" }

/-- `errors.WrapError(err, "Failed to validate generated refresh token")`. -/
def validateGeneratedErr : AppError := { code := 500, message := "Failed to validate generated refresh token" }

/-! ## Refresh token store (`repositories/refresh_token_repository.go`, src/unnamed/part_015)

The `refresh_tokens` table is modelled as a list of rows.  Per
`internal/database/migrations_v2.sql`, `token_id` carries a `UNIQUE`
constraint, so an `INSERT` with an existing `token_id` fails (and aborts
its surrounding transaction). -/

/-- `models.RefreshToken` (internal/models/post.go lines 78-88). -/
structure RefreshTokenRecord where
  userID : String
  tokenID : String
  tokenHash : String
  expiresAt : Int
  isRevoked : Bool
  createdAt : Int
  revokedAt : Option Int := none
deriving DecidableEq, Repr

/-- The `refresh_tokens` table. -/
abbrev Store := List RefreshTokenRecord

/-- `SELECT ... FROM refresh_tokens WHERE token_id = $1` via `QueryRow`
(first matching row, or no row). -/
def findByTokenID (st : Store) (t : String) : Option RefreshTokenRecord :=
  st.find? (fun r => r.tokenID == t)

/-- `EXISTS(SELECT 1 FROM refresh_tokens WHERE token_id = $1)` — the
unique-constraint test an `INSERT` performs on `token_id`. -/
def existsTokenID (st : Store) (t : String) : Bool :=
  st.any (fun r => r.tokenID == t)

/-- The row inserted by `Create` / the rotation transaction:
`(user_id, token_id, token_hash, expires_at, is_revoked=false, created_at=now)`. -/
def newRecord (tokenID tokenHash userID : String) (expiresAt now : Int) : RefreshTokenRecord :=
  { userID := userID, tokenID := tokenID, tokenHash := tokenHash,
    expiresAt := expiresAt, isRevoked := false, createdAt := now, revokedAt := none }

/-- `UPDATE refresh_tokens SET is_revoked = true, revoked_at = $1 WHERE
token_id = $2` (the body of `Revoke` and of the revocation step inside
the rotation transaction). -/
def markRevoked (st : Store) (t : String) (now : Int) : Store :=
  st.map (fun r => if r.tokenID == t then { r with isRevoked := true, revokedAt := some now } else r)

/-- `refreshTokenRepository.Create` (src/unnamed/part_015 lines 24-34):
inserts a new active row; fails on the `token_id` unique constraint. -/
def createToken (st : Store) (tokenID tokenHash userID : String) (expiresAt now : Int) :
    Except AppError Store :=
  if existsTokenID st tokenID then .error createTokenStoreErr
  else .ok (st ++ [newRecord tokenID tokenHash userID expiresAt now])

/-- `refreshTokenRepository.Revoke` (src/unnamed/part_015 lines 64-73):
a single `UPDATE` that matches zero or more rows and never fails. -/
def revoke (st : Store) (tokenID : String) (now : Int) : Store :=
  markRevoked st tokenID now

/-- `refreshTokenRepository.RotateToken` (src/unnamed/part_015 lines
125-176): in one transaction, lock and read the row for `oldT`; abort
with the generic 401 if it is absent, revoked or expired; insert the new
row (aborting on the unique-constraint violation); revoke the old row;
commit.  An error result means the transaction rolled back. -/
def rotateToken (st : Store) (oldT newT newHash userID : String) (expiresAt now : Int) :
    Except AppError Store :=
  match findByTokenID st oldT with
  | none => .error invalidRefreshTokenErr
  | some r =>
    if r.isRevoked || r.expiresAt < now then .error invalidRefreshTokenErr
    else if existsTokenID st newT then .error rotateInsertErr
    else .ok (markRevoked (st ++ [newRecord newT newHash userID expiresAt now]) oldT now)

/-- The table state after a `RotateToken` call: the committed new
state on success, the untouched state on rollback (`defer tx.Rollback()`). -/
def rotateApply (st : Store) (oldT newT newHash userID : String) (expiresAt now : Int) : Store :=
  match rotateToken st oldT newT newHash userID expiresAt now with
  | .ok st' => st'
  | .error _ => st

/-! ## bcrypt and the refresh-token hash -/

/-- Symbolic `bcrypt.GenerateFromPassword(pw, bcrypt.DefaultCost)`:
deterministic injective encoding (see the header note). -/
def bcryptGenerate (password : String) : String :=
  "bcrypt$10$" ++ password

/-- Symbolic `bcrypt.CompareHashAndPassword(hash, pw)` as a Boolean:
succeeds exactly on the hash of `pw`. -/
def bcryptCompare (hash password : String) : Bool :=
  hash == bcryptGenerate password

/-- `auth.HashRefreshToken` (src/unnamed/part_007 lines 217-220):
deterministic one-way digest of the signed token string.  No operation of
the store ever inspects or compares `token_hash` (rotation and revocation
key on `token_id`), so the digest is modelled as an uninterpreted
deterministic function of the identifying claims of the token. -/
def hashRefreshToken (tok : SignedToken) : String :=
  "sha256$" ++ tok.alg ++ "$" ++ (getStr tok.claims.token_id).getD "" ++ "$" ++
    (getStr tok.claims.typ).getD ""

/-! ## User store (external collaborator)

Modelled from the spec: the `models.UserRepository` implementation is not
under src/ (only the interface in src/unnamed/part_013 and its callers
are).  Per spec §6 the User Store returns the stored row, or a generic
not-found signal (absence, not an error) when no row matches — matching
the in-repo `entities` repository
(`internal/application/repositories/user_repository.go`). -/

/-- The `users` table. -/
abbrev UserStore := List User

/-- `userRepo.GetByEmail`: stored row (password hash included) or absence. -/
def getByEmail (db : UserStore) (email : String) : Option User :=
  db.find? (fun u => u.email == email)

/-- `userRepo.GetByID`: stored row (password hash included) or absence. -/
def getByID (db : UserStore) (id : String) : Option User :=
  db.find? (fun u => u.id == id)

/-- `userRepo.ExistsByEmail`. -/
def existsByEmail (db : UserStore) (email : String) : Bool :=
  db.any (fun u => u.email == email)

/-- `userRepo.ExistsByUsername`. -/
def existsByUsername (db : UserStore) (username : String) : Bool :=
  db.any (fun u => u.username == username)

/-! ## Request validation (`internal/pkg/validation/validator.go`) -/

/-- `models.LoginRequest` (src/unnamed/part_013 lines 65-68). -/
structure LoginRequest where
  email : String
  password : String
deriving DecidableEq, Repr

/-- `models.CreateUserRequest` (src/unnamed/part_013 lines 52-56). -/
structure CreateUserRequest where
  username : String
  email : String
  password : String
deriving DecidableEq, Repr

/-- Abstraction of the go-playground `email` format tag: exactly one `@`,
with a non-empty local part and a non-empty domain around it. -/
def emailFormatOk (s : String) : Bool :=
  s.data.count '@' == 1 && !(s.data.head? == some '@') && !(s.data.getLast? == some '@')

/-- The custom `username` tag (validator.go lines 38-48): 3-20 characters,
alphanumeric and underscores only. -/
def usernameTagOk (s : String) : Bool :=
  3 ≤ s.length && s.length ≤ 20 &&
    s.data.all (fun c => c.isAlpha || c.isDigit || c == '_')

/-- The custom `password` tag (validator.go lines 51-64): at least 6
characters with at least one letter and one number. -/
def passwordTagOk (s : String) : Bool :=
  6 ≤ s.length && s.data.any Char.isAlpha && s.data.any Char.isDigit

/-- `validator.Validate` on a `LoginRequest` (`required,email` on email,
`required` on password). -/
def loginRequestOk (req : LoginRequest) : Bool :=
  !req.email.data.isEmpty && emailFormatOk req.email && !req.password.data.isEmpty

/-- `validator.Validate` on a `CreateUserRequest` (`required,username`,
`required,email`, `required,password`). -/
def createUserRequestOk (req : CreateUserRequest) : Bool :=
  usernameTagOk req.username && emailFormatOk req.email && passwordTagOk req.password

/-! ## User service (`services/user_service.go`, src/unnamed/part_016) -/

/-- `models.LoginResponse` (src/unnamed/part_013 lines 76-82): token pair
plus the embedded `User` struct. -/
structure LoginResponse where
  accessToken : SignedToken
  refreshToken : SignedToken
  tokenType : String
  expiresIn : Int
  user : User
deriving DecidableEq, Repr

/-- `userService.AuthenticateUser` (src/unnamed/part_016 lines 296-355).
`tokenID` is the random token id minted inside `GenerateTokenPair` and
`now` the call time.  Returns the service result together with the
refresh-token table after the call (unchanged on every error path). -/
def authenticateUser (db : UserStore) (st : Store) (j : JWTManager)
    (req : LoginRequest) (tokenID : String) (now : Int) :
    Except AppError LoginResponse × Store :=
  if ¬ loginRequestOk req then (.error validationFailedErr, st)
  else match getByEmail db req.email with
    | none => (.error errUserNotFound, st)
    | some user =>
      if ¬ bcryptCompare user.password req.password then (.error errUnauthorized, st)
      else if ¬ user.isActive then (.error accountDeactivatedErr, st)
      else
        let pair := generateTokenPair j user tokenID now
        match validateRefreshToken j pair.refreshToken now with
        | .error _ => (.error validateGeneratedErr, st)
        | .ok refreshClaims =>
          let tokenHash := hashRefreshToken pair.refreshToken
          let expiresAt := now + j.refreshDuration
          match createToken st refreshClaims.tokenID tokenHash user.id expiresAt now with
          | .error e => (.error e, st)
          | .ok st' =>
            (.ok { accessToken := pair.accessToken, refreshToken := pair.refreshToken,
                   tokenType := pair.tokenType, expiresIn := pair.expiresIn, user := user }, st')

/-- `userService.RefreshToken` (src/unnamed/part_016 lines 186-240).
`newTokenID` is the fresh random id minted inside `GenerateTokenPair`.
Returns the service result and the refresh-token table after the call. -/
def refreshTokenService (db : UserStore) (st : Store) (j : JWTManager)
    (presented : SignedToken) (newTokenID : String) (now : Int) :
    Except AppError LoginResponse × Store :=
  match validateRefreshToken j presented now with
  | .error _ => (.error invalidRefreshTokenErr, st)
  | .ok claims =>
    match getByID db claims.userID with
    | none => (.error invalidRefreshTokenErr, st)
    | some user =>
      if ¬ user.isActive then (.error accountDeactivatedErr, st)
      else
        let pair := generateTokenPair j user newTokenID now
        match validateRefreshToken j pair.refreshToken now with
        | .error _ => (.error validateGeneratedErr, st)
        | .ok newClaims =>
          let tokenHash := hashRefreshToken pair.refreshToken
          let expiresAt := now + j.refreshDuration
          match rotateToken st claims.tokenID newClaims.tokenID tokenHash user.id expiresAt now with
          | .error _ => (.error invalidRefreshTokenErr, st)
          | .ok st' =>
            (.ok { accessToken := pair.accessToken, refreshToken := pair.refreshToken,
                   tokenType := pair.tokenType, expiresIn := pair.expiresIn, user := user }, st')

/-- `userService.Logout` (src/unnamed/part_016 lines 243-250): revokes by
`tokenID` only; the `userID` argument is never consulted. -/
def logoutService (userID : String) (tokenID : String) (st : Store) (now : Int) :
    Except AppError Unit × Store :=
  (.ok (), revoke st tokenID now)

/-- `userService.CreateUser` (src/unnamed/part_016 lines 34-81). `newID`
is the id the database assigns to the inserted row.  Returns the service
result (password field cleared after the insert) and the users table. -/
def createUser (db : UserStore) (req : CreateUserRequest) (newID : String) (now : Int) :
    Except AppError User × UserStore :=
  if ¬ createUserRequestOk req then (.error validationFailedErr, db)
  else if existsByEmail db req.email then (.error errUserExists, db)
  else if existsByUsername db req.username then (.error usernameTakenErr, db)
  else
    let user : User :=
      { id := newID, username := req.username, email := req.email,
        password := bcryptGenerate req.password, isActive := true,
        lastLogin := none, createdAt := now, updatedAt := now }
    (.ok { user with password := "" }, db ++ [user])

/-- `userService.GetUserByID` (src/unnamed/part_016 lines 84-97): clears
the password field before returning. -/
def getUserByID (db : UserStore) (id : String) : Except AppError User :=
  match getByID db id with
  | none => .error errUserNotFound
  | some user => .ok { user with password := "" }

/-! ## Step relation over the refresh-token store (for the revocation
invariant).  Each constructor carries the inputs of one service/store
call; `refreshTok` additionally carries the outcomes of the steps that
precede the store rotation in `userService.RefreshToken` (whether the
presented JWT validated, and whether the user was found and active). -/

/-- One operation of {Create, Revoke, RotateToken, Logout, Refresh}. -/
inductive AuthOp where
  | createTok (tokenID tokenHash userID : String) (expiresAt now : Int)
  | revokeTok (tokenID : String) (now : Int)
  | rotateTok (oldT newT newHash userID : String) (expiresAt now : Int)
  | logout (userID tokenID : String) (now : Int)
  | refreshTok (oldT newT newHash userID : String) (expiresAt now : Int)
      (jwtOk userFound userActive : Bool)
deriving DecidableEq, Repr

/-- Result and post-state of one operation, from the corresponding source
functions (`refreshTokenRepository.Create/Revoke/RotateToken`,
`userService.Logout/RefreshToken`).  Errors leave the table unchanged
(single-statement atomicity, or transaction rollback for `RotateToken`). -/
def stepOp (op : AuthOp) (st : Store) : Except AppError Unit × Store :=
  match op with
  | .createTok t h uid e now =>
    match createToken st t h uid e now with
    | .ok st' => (.ok (), st')
    | .error er => (.error er, st)
  | .revokeTok t now => (.ok (), revoke st t now)
  | .rotateTok o n h uid e now =>
    match rotateToken st o n h uid e now with
    | .ok st' => (.ok (), st')
    | .error er => (.error er, st)
  | .logout _uid t now => (.ok (), revoke st t now)
  | .refreshTok o n h uid e now jwtOk userFound userActive =>
    if ¬ jwtOk then (.error invalidRefreshTokenErr, st)
    else if ¬ userFound then (.error invalidRefreshTokenErr, st)
    else if ¬ userActive then (.error accountDeactivatedErr, st)
    else
      match rotateToken st o n h uid e now with
      | .ok st' => (.ok (), st')
      | .error _ => (.error invalidRefreshTokenErr, st)

/-- The table after a sequence of operations. -/
def runOps (ops : List AuthOp) (st : Store) : Store :=
  ops.foldl (fun s op => (stepOp op s).2) st

/-- Invariant: some row for `t` exists and every row for `t` is revoked. -/
def revokedAll (t : String) (st : Store) : Bool :=
  existsTokenID st t && st.all (fun r => r.tokenID != t || r.isRevoked)

/-! ## Password policy (`internal/pkg/security/password.go`, src/unnamed/part_009)

The embedding works on the character list of the password (the Go code
indexes bytes; the two coincide on ASCII passwords, which is the domain
of all rule constants).  The outcome type has a third constructor `panicked`:
`checkCommonPatterns` calls `regexp.MustCompile` on the pattern
`(.\x7b2,\x7d)\1`, and the Go RE2 `regexp` package does not support the
backreference `\1` (a single digit after a backslash is an invalid escape
sequence), so `MustCompile` panics whenever that statement is reached —
the function cannot return at all from that point on. -/

/-- Outcome of a password check: accepted, rejected with a policy reason,
or a runtime panic escaping the checker. -/
inductive PwCheck where
  | ok
  | policyError (msg : String)
  | panicked (msg : String)
deriving DecidableEq, Repr

/-- `security.PasswordPolicy` (src/unnamed/part_009 lines 17-26). -/
structure PasswordPolicy where
  minLength : Nat
  maxLength : Nat
  requireUppercase : Bool
  requireLowercase : Bool
  requireNumbers : Bool
  requireSpecial : Bool
  forbiddenWords : List String
  maxConsecutive : Nat
deriving DecidableEq, Repr

/-- `security.DefaultPasswordPolicy` (src/unnamed/part_009 lines 29-43). -/
def defaultPasswordPolicy : PasswordPolicy :=
  { minLength := 8
    maxLength := 128
    requireUppercase := true
    requireLowercase := true
    requireNumbers := true
    requireSpecial := true
    forbiddenWords := ["password", "123456", "qwerty", "abc123", "password123",
                       "admin", "root", "user", "test", "guest", "demo"]
    maxConsecutive := 3 }

/-- ASCII fragment of `unicode.IsUpper`. -/
def isUpperGo (c : Char) : Bool := 'A' ≤ c && c ≤ 'Z'

/-- ASCII fragment of `unicode.IsLower`. -/
def isLowerGo (c : Char) : Bool := 'a' ≤ c && c ≤ 'z'

/-- ASCII fragment of `unicode.IsNumber`. -/
def isNumberGo (c : Char) : Bool := '0' ≤ c && c ≤ '9'

/-- ASCII fragment of `unicode.IsPunct(c) || unicode.IsSymbol(c)`: the
printable ASCII characters that are neither alphanumeric nor space. -/
def isSpecialGo (c : Char) : Bool :=
  33 ≤ c.val && c.val ≤ 126 && !(isUpperGo c || isLowerGo c || isNumberGo c)

/-- ASCII fragment of `strings.ToLower` on one character. -/
def toLowerGo (c : Char) : Char :=
  if isUpperGo c then Char.ofNat (c.val.toNat + 32) else c

/-- Is `pre` a prefix of `l` (character lists)? -/
def listHasPrefix : List Char → List Char → Bool
  | [], _ => true
  | _ :: _, [] => false
  | a :: as, b :: bs => a == b && listHasPrefix as bs

/-- `strings.Contains hay needle` on character lists. -/
def containsSub (needle : List Char) : List Char → Bool
  | [] => needle.isEmpty
  | c :: rest => listHasPrefix needle (c :: rest) || containsSub needle rest

/-- The scan of the consecutive-identical-characters loop
(src/unnamed/part_009 lines 98-110): `true` when some run exceeds
`maxC`. -/
def consecLoop (maxC : Nat) (prev : Char) (count : Nat) : List Char → Bool
  | [] => false
  | c :: rest =>
    if c == prev then
      if count + 1 > maxC then true else consecLoop maxC c (count + 1) rest
    else consecLoop maxC c 1 rest

/-- Entry point of the consecutive-characters check. -/
def hasExcessConsecutive (maxC : Nat) : List Char → Bool
  | [] => false
  | c :: rest => consecLoop maxC c 1 rest

/-- All length-4 windows `seq[i:i+4]` of a sequence constant. -/
def windows4 : List Char → List (List Char)
  | [] => []
  | c :: rest =>
    match rest with
    | a :: b :: d :: _ => [c, a, b, d] :: windows4 rest
    | _ => []

/-- The sequence constants of `checkCommonPatterns`
(src/unnamed/part_009 lines 123-134). -/
def sequentialConstants : List String :=
  ["abcdefghijklmnopqrstuvwxyz", "zyxwvutsrqponmlkjihgfedcba",
   "0123456789", "9876543210",
   "qwertyuiop", "poiuytrewq",
   "asdfghjkl", "lkjhgfdsa",
   "zxcvbnm", "mnbvcxz"]

/-- The sequential-substring scan: some length-4 window of some sequence
constant occurs in the lowercased password. -/
def hasSequential (lower : List Char) : Bool :=
  sequentialConstants.any (fun seq => (windows4 seq.data).any (fun w => containsSub w lower))

/-- `PasswordPolicy.checkCommonPatterns` (src/unnamed/part_009 lines
121-152): the sequential scan may reject first; any password surviving it
reaches `regexp.MustCompile` on a pattern with the unsupported
backreference `\1`, which panics (the repeated-pattern rejection and the
final `return nil` are unreachable). -/
def checkCommonPatterns (password : String) : PwCheck :=
  let lower := password.data.map toLowerGo
  if hasSequential lower then .policyError "password contains sequential characters"
  else .panicked "regexp: invalid escape sequence"

/-- `PasswordPolicy.ValidatePassword` (src/unnamed/part_009 lines 46-118),
checks in source order: length bounds, required character classes,
forbidden substrings (case-insensitive), consecutive identical
characters, then `checkCommonPatterns`. -/
def validatePassword (pp : PasswordPolicy) (password : String) : PwCheck :=
  let cs := password.data
  if cs.length < pp.minLength then
    .policyError ("password must be at least " ++ toString pp.minLength ++ " characters long")
  else if cs.length > pp.maxLength then
    .policyError ("password must be no more than " ++ toString pp.maxLength ++ " characters long")
  else if pp.requireUppercase && !cs.any isUpperGo then
    .policyError "password must contain at least one uppercase letter"
  else if pp.requireLowercase && !cs.any isLowerGo then
    .policyError "password must contain at least one lowercase letter"
  else if pp.requireNumbers && !cs.any isNumberGo then
    .policyError "password must contain at least one number"
  else if pp.requireSpecial && !cs.any isSpecialGo then
    .policyError "password must contain at least one special character"
  else
    let lower := cs.map toLowerGo
    match pp.forbiddenWords.find? (fun w => containsSub (w.data.map toLowerGo) lower) with
    | some w => .policyError ("password contains forbidden word: " ++ w)
    | none =>
      if pp.maxConsecutive > 0 && hasExcessConsecutive pp.maxConsecutive cs then
        .policyError ("password cannot contain more than " ++ toString pp.maxConsecutive ++
          " consecutive identical characters")
      else checkCommonPatterns password

/-! ## Demonstration fixtures used by the witness theorems -/

/-- A concrete codec configuration with positive TTLs. -/
def demoJWT : JWTManager :=
  { accessSecretKey := "access-secret", refreshSecretKey := "refresh-secret",
    accessDuration := 900, refreshDuration := 604800,
    issuer := "go-backend-api", audience := "go-backend-clients" }

/-- A concrete active user with a canonical UUID and a stored bcrypt hash. -/
def demoUser : User :=
  { id := "123e4567-e89b-12d3-a456-426614174000", username := "alice",
    email := "alice@x.com", password := bcryptGenerate "Secur3!Pass", isActive := true }

/-- The same account deactivated. -/
def demoInactiveUser : User := { demoUser with isActive := false }

/-- A one-user users table. -/
def demoDB : UserStore := [demoUser]

/-! ## Theorems -/

/-- Helper: validating a freshly generated access token at its issue time
recovers exactly the embedded claims. -/
theorem validate_generated_access (j : JWTManager) (u : User) (tid : String) (now : Int)
    (ha : 0 < j.accessDuration) (hu : isUUIDString u.id = true) :
    validateAccessToken j (generateAccessToken j u tid now) now =
      .ok { userID := u.id, username := u.username, tokenID := tid, typ := "access" } := by
  have hlt : now < now + j.accessDuration := by omega
  simp [validateAccessToken, validateToken, generateAccessToken, signHS256, getStr,
    expClaimValid, nbfClaimValid, isHMACAlg, uuidParse, hlt, hu]

/-- Helper: validating a freshly generated refresh token at its issue time
recovers exactly the embedded claims. -/
theorem validate_generated_refresh (j : JWTManager) (u : User) (tid : String) (now : Int)
    (hr : 0 < j.refreshDuration) (hu : isUUIDString u.id = true) :
    validateRefreshToken j (generateRefreshToken j u tid now) now =
      .ok { userID := u.id, username := u.username, tokenID := tid, typ := "refresh" } := by
  have hlt : now < now + j.refreshDuration := by omega
  simp [validateRefreshToken, validateToken, generateRefreshToken, signHS256, getStr,
    expClaimValid, nbfClaimValid, isHMACAlg, uuidParse, hlt, hu]

/-- C5: for every user `u` (with a well-formed UUID) and positive
configured TTLs, validating the access token of `GenerateTokenPair u`
with `ValidateAccessToken` succeeds and yields claims with
`user_id = u.id`, `username = u.username`, `type = "access"`; validating
the refresh token of the same pair with `ValidateRefreshToken` yields
`user_id = u.id`, `username = u.username`, `type = "refresh"`; and both
tokens carry the same `token_id`. -/
theorem generateTokenPair_roundtrip (j : JWTManager) (u : User) (tid : String) (now : Int)
    (ha : 0 < j.accessDuration) (hr : 0 < j.refreshDuration) (hu : isUUIDString u.id = true) :
    validateAccessToken j (generateTokenPair j u tid now).accessToken now =
      .ok { userID := u.id, username := u.username, tokenID := tid, typ := "access" } ∧
    validateRefreshToken j (generateTokenPair j u tid now).refreshToken now =
      .ok { userID := u.id, username := u.username, tokenID := tid, typ := "refresh" } :=
  ⟨validate_generated_access j u tid now ha hu,
   validate_generated_refresh j u tid now hr hu⟩

/-- Witness for C5 at a concrete configuration, user and time. -/
theorem generateTokenPair_roundtrip_witness :
    (0 : Int) < demoJWT.accessDuration ∧ (0 : Int) < demoJWT.refreshDuration ∧
    isUUIDString demoUser.id = true ∧
    validateAccessToken demoJWT (generateTokenPair demoJWT demoUser "tid01" 1000).accessToken 1000 =
      .ok { userID := demoUser.id, username := demoUser.username, tokenID := "tid01", typ := "access" } :=
  ⟨by decide, by decide, by decide,
   (generateTokenPair_roundtrip demoJWT demoUser "tid01" 1000 (by decide) (by decide) (by decide)).1⟩

/-- Helper: a successful `validateToken` implies every check it performs
passed — an HMAC algorithm, a signature by exactly the configured secret
over these claims, an unexpired `exp`, a satisfied `nbf`, and matching
`type`, issuer and audience claims. -/
theorem validateToken_ok_checks (j : JWTManager) (tok : SignedToken) (secretKey expectedType : String)
    (now : Int) (c : TokenClaims) (h : validateToken j tok secretKey expectedType now = .ok c) :
    isHMACAlg tok.alg = true ∧ tok.sig = (secretKey, tok.claims) ∧
    expClaimValid tok.claims.exp now = true ∧ nbfClaimValid tok.claims.nbf now = true ∧
    getStr tok.claims.typ = some expectedType ∧
    getStr tok.claims.iss = some j.issuer ∧
    getStr tok.claims.aud = some j.audience := by
  unfold validateToken at h
  repeat' split at h
  all_goals simp_all

/-- C6: any token that is signed with a key other than the secret
configured for that validator, or whose audience claim differs from the configured
audience, or whose issuer claim differs from the configured issuer, or
whose expiry time is in the past, or whose type claim differs from the
expected kind, is rejected by `validateToken` (hence by
`ValidateAccessToken` and `ValidateRefreshToken`, its two instances);
the `Except` result carries no claims in that case. -/
theorem validateToken_rejects_invalid (j : JWTManager) (tok : SignedToken)
    (secretKey expectedType : String) (now : Int)
    (h : tok.sig.1 ≠ secretKey ∨
         getStr tok.claims.aud ≠ some j.audience ∨
         getStr tok.claims.iss ≠ some j.issuer ∨
         (∃ e, tok.claims.exp = some (.jnum e) ∧ e < now) ∨
         getStr tok.claims.typ ≠ some expectedType) :
    isErr (validateToken j tok secretKey expectedType now) = true := by
  cases hv : validateToken j tok secretKey expectedType now with
  | error m => rfl
  | ok c =>
    exfalso
    obtain ⟨_, hsig, hexp, _, htyp, hiss, haud⟩ :=
      validateToken_ok_checks j tok secretKey expectedType now c hv
    rcases h with h | h | h | ⟨e, he, hlt⟩ | h
    · exact h (by rw [hsig])
    · exact h haud
    · exact h hiss
    · rw [he] at hexp; simp only [expClaimValid, decide_eq_true_eq] at hexp; omega
    · exact h htyp

/-- Witness for C6: the demo access token presented to a validator
configured with a different secret is rejected. -/
theorem validateToken_rejects_invalid_witness :
    ((generateTokenPair demoJWT demoUser "tid01" 1000).accessToken.sig.1 ≠ "wrong-secret") ∧
    isErr (validateToken demoJWT (generateTokenPair demoJWT demoUser "tid01" 1000).accessToken
      "wrong-secret" "access" 1000) = true :=
  ⟨by decide,
   validateToken_rejects_invalid demoJWT (generateTokenPair demoJWT demoUser "tid01" 1000).accessToken
     "wrong-secret" "access" 1000 (.inl (by decide))⟩

/-- Helper: a successful rotation implies the new token id was free and
the resulting table is exactly the old one with the new active row
inserted and every `oldT` row marked revoked. -/
theorem rotateToken_ok_inv (st : Store) (oldT newT newHash userID : String) (expiresAt now : Int)
    (st' : Store) (h : rotateToken st oldT newT newHash userID expiresAt now = .ok st') :
    existsTokenID st newT = false ∧
    st' = markRevoked (st ++ [newRecord newT newHash userID expiresAt now]) oldT now := by
  unfold rotateToken at h
  repeat' split at h
  all_goals simp_all

/-- C1: `RotateToken(old, new, hash, user, exp)` fails with the one
generic `Invalid refresh token` error (401), leaving the table unchanged,
when the old row is absent, already revoked, or already expired — the
same error value for all three causes; when the old row is live it
atomically inserts the new active row and marks the old row revoked; and
when the insert itself fails (unique `token_id` constraint) the whole
transaction rolls back with no partial state. -/
theorem rotateToken_spec (st : Store) (oldT newT newHash userID : String) (expiresAt now : Int) :
    ((findByTokenID st oldT = none ∨
        (∃ r, findByTokenID st oldT = some r ∧ (r.isRevoked = true ∨ r.expiresAt < now))) →
      rotateToken st oldT newT newHash userID expiresAt now = .error invalidRefreshTokenErr ∧
      rotateApply st oldT newT newHash userID expiresAt now = st) ∧
    (∀ r, findByTokenID st oldT = some r → r.isRevoked = false → ¬ r.expiresAt < now →
      existsTokenID st newT = false →
      rotateToken st oldT newT newHash userID expiresAt now =
        .ok (markRevoked (st ++ [newRecord newT newHash userID expiresAt now]) oldT now)) ∧
    (∀ r, findByTokenID st oldT = some r → r.isRevoked = false → ¬ r.expiresAt < now →
      existsTokenID st newT = true →
      rotateToken st oldT newT newHash userID expiresAt now = .error rotateInsertErr ∧
      rotateApply st oldT newT newHash userID expiresAt now = st) := by
  refine ⟨?_, ?_, ?_⟩
  · rintro (hnone | ⟨r, hr, hbad | hbad⟩)
    · simp [rotateToken, rotateApply, hnone]
    · simp [rotateToken, rotateApply, hr, hbad]
    · simp [rotateToken, rotateApply, hr, hbad]
  · intro r hr hrev hexp hfree
    simp [rotateToken, hr, hrev, hexp, hfree]
  · intro r hr hrev hexp hdup
    simp [rotateToken, rotateApply, hr, hrev, hexp, hdup]

/-- Witness for C1: on a table with one live row for `"t0"`, rotation to
the fresh id `"t1"` succeeds with both effects, and rotating the absent
id `"tz"` fails with the generic error leaving the table unchanged. -/
theorem rotateToken_spec_witness :
    (findByTokenID [newRecord "t0" "h0" "u0" 100 0] "t0" = some (newRecord "t0" "h0" "u0" 100 0) ∧
     rotateToken [newRecord "t0" "h0" "u0" 100 0] "t0" "t1" "h1" "u0" 200 50 =
       .ok (markRevoked ([newRecord "t0" "h0" "u0" 100 0] ++ [newRecord "t1" "h1" "u0" 200 50]) "t0" 50)) ∧
    (rotateToken [newRecord "t0" "h0" "u0" 100 0] "tz" "t1" "h1" "u0" 200 50 =
       .error invalidRefreshTokenErr ∧
     rotateApply [newRecord "t0" "h0" "u0" 100 0] "tz" "t1" "h1" "u0" 200 50 =
       [newRecord "t0" "h0" "u0" 100 0]) :=
  ⟨⟨by decide,
    (rotateToken_spec [newRecord "t0" "h0" "u0" 100 0] "t0" "t1" "h1" "u0" 200 50).2.1
      (newRecord "t0" "h0" "u0" 100 0) (by decide) (by decide) (by decide) (by decide)⟩,
   (rotateToken_spec [newRecord "t0" "h0" "u0" 100 0] "tz" "t1" "h1" "u0" 200 50).1
     (.inl (by decide))⟩

/-- C8: `Revoke(token_id)` is total and idempotent: it always returns
success (also when no row matches or the row is already revoked — the
`UPDATE` then simply touches nothing or re-touches it), on a table
without the token id it changes nothing, re-revoking at the same instant
is a no-op, and re-revoking at any later instant leaves the revocation
state (which rows exist and which are revoked) identical — only the
`revoked_at` timestamp is refreshed. -/
theorem revoke_total_idempotent (st : Store) (t : String) (now now2 : Int) :
    (stepOp (.revokeTok t now) st).1 = .ok () ∧
    (existsTokenID st t = false → revoke st t now = st) ∧
    revoke (revoke st t now) t now = revoke st t now ∧
    (revoke (revoke st t now) t now2).map (fun r => (r.tokenID, r.isRevoked)) =
      (revoke st t now).map (fun r => (r.tokenID, r.isRevoked)) := by
  refine ⟨rfl, ?_, ?_, ?_⟩
  · intro hnone
    simp only [existsTokenID, List.any_eq_false] at hnone
    simp only [revoke, markRevoked]
    calc st.map (fun r => if r.tokenID == t then
            { r with isRevoked := true, revokedAt := some now } else r)
        = st.map id := by
          apply List.map_congr_left
          intro r hr
          have := hnone r hr
          simp_all
      _ = st := List.map_id st
  · simp only [revoke, markRevoked, List.map_map]
    apply List.map_congr_left
    intro r _
    by_cases h : r.tokenID == t <;> simp [h, Function.comp]
  · simp only [revoke, markRevoked, List.map_map]
    apply List.map_congr_left
    intro r _
    by_cases h : r.tokenID == t <;> simp [h, Function.comp]

/-- Witness for the conditional part of C8: revoking an absent token id on a
one-row table changes nothing and reports success. -/
theorem revoke_total_idempotent_witness :
    existsTokenID [newRecord "t0" "h0" "u0" 100 0] "tz" = false ∧
    revoke [newRecord "t0" "h0" "u0" 100 0] "tz" 7 = [newRecord "t0" "h0" "u0" 100 0] ∧
    (stepOp (.revokeTok "tz" 7) [newRecord "t0" "h0" "u0" 100 0]).1 = .ok () :=
  ⟨by decide,
   (revoke_total_idempotent [newRecord "t0" "h0" "u0" 100 0] "tz" 7 8).2.1 (by decide),
   (revoke_total_idempotent [newRecord "t0" "h0" "u0" 100 0] "tz" 7 8).1⟩

/-- C9: `Logout(user_id, token_id)` never consults its `user_id`
argument: for any two callers it performs the identical store transition
and returns the identical result — the revocation is keyed only by
`token_id`, with no ownership check. -/
theorem logout_ignores_userID (u1 u2 t : String) (st : Store) (now : Int) :
    logoutService u1 t st now = logoutService u2 t st now ∧
    logoutService u1 t st now = (.ok (), revoke st t now) :=
  ⟨rfl, rfl⟩

/-- Helper: the propositional reading of the `revokedAll` invariant. -/
theorem revokedAll_iff (t : String) (st : Store) :
    revokedAll t st = true ↔
      (∃ r ∈ st, r.tokenID = t) ∧ (∀ r ∈ st, r.tokenID = t → r.isRevoked = true) := by
  simp only [revokedAll, existsTokenID, Bool.and_eq_true, List.any_eq_true, List.all_eq_true,
    Bool.or_eq_true, bne_iff_ne, ne_eq, beq_iff_eq]
  constructor
  · rintro ⟨⟨r, hr, ht⟩, hall⟩
    refine ⟨⟨r, hr, ht⟩, fun r' hr' ht' => ?_⟩
    rcases hall r' hr' with hne | hrev
    · exact absurd ht' hne
    · exact hrev
  · rintro ⟨⟨r, hr, ht⟩, hall⟩
    refine ⟨⟨r, hr, ht⟩, fun r' hr' => ?_⟩
    by_cases ht' : r'.tokenID = t
    · exact .inr (hall r' hr' ht')
    · exact .inl ht'

/-- Helper: the revocation `UPDATE` preserves the invariant (it only sets
`is_revoked` flags, never clears one, and touches no `token_id`). -/
theorem markRevoked_revokedAll (t o : String) (now : Int) (st : Store)
    (h : revokedAll t st = true) : revokedAll t (markRevoked st o now) = true := by
  rw [revokedAll_iff] at h ⊢
  obtain ⟨⟨r, hr, ht⟩, hall⟩ := h
  constructor
  · refine ⟨if r.tokenID == o then { r with isRevoked := true, revokedAt := some now } else r,
      List.mem_map_of_mem _ hr, ?_⟩
    by_cases ho : (r.tokenID == o) = true
    · rw [if_pos ho]; exact ht
    · rw [if_neg ho]; exact ht
  · intro r' hr' ht'
    obtain ⟨r₀, hr₀, hconv⟩ := List.mem_map.1 hr'
    by_cases ho : r₀.tokenID == o
    · rw [if_pos ho] at hconv
      simp [← hconv]
    · rw [if_neg ho] at hconv
      subst hconv
      exact hall r₀ hr₀ ht'

/-- Helper: inserting a row with a different `token_id` preserves the
invariant. -/
theorem revokedAll_append_ne (t : String) (st : Store) (nr : RefreshTokenRecord)
    (h : revokedAll t st = true) (hne : nr.tokenID ≠ t) :
    revokedAll t (st ++ [nr]) = true := by
  rw [revokedAll_iff] at h ⊢
  obtain ⟨⟨r, hr, ht⟩, hall⟩ := h
  refine ⟨⟨r, List.mem_append_left _ hr, ht⟩, fun r' hr' ht' => ?_⟩
  rcases List.mem_append.1 hr' with hmem | hmem
  · exact hall r' hmem ht'
  · simp only [List.mem_singleton] at hmem
    subst hmem
    exact absurd ht' hne

/-- Helper: the invariant includes existence of a row for `t`. -/
theorem revokedAll_exists (t : String) (st : Store) (h : revokedAll t st = true) :
    existsTokenID st t = true := by
  simp only [revokedAll, Bool.and_eq_true] at h
  exact h.1

/-- Helper: a rotation presenting a token id whose rows are all revoked
aborts with the generic error. -/
theorem rotateToken_revoked_fails (t n nh uid : String) (e now : Int) (st : Store)
    (h : revokedAll t st = true) :
    rotateToken st t n nh uid e now = .error invalidRefreshTokenErr := by
  have hall := ((revokedAll_iff t st).1 h).2
  unfold rotateToken
  cases hf : findByTokenID st t with
  | none => rfl
  | some r =>
    have hmem : r ∈ st := List.mem_of_find?_eq_some hf
    have htid : r.tokenID = t := by simpa using List.find?_some hf
    have hrev : r.isRevoked = true := hall r hmem htid
    simp [hrev]

/-- Helper: one step of any of {Create, Revoke, RotateToken, Logout,
Refresh} preserves the invariant (re-creating the id is blocked by the
`token_id` unique constraint; rotation to a fresh id cannot reuse it). -/
theorem stepOp_preserves_revokedAll (t : String) (op : AuthOp) (st : Store)
    (h : revokedAll t st = true) : revokedAll t (stepOp op st).2 = true := by
  have hex := revokedAll_exists t st h
  cases op with
  | createTok t' h' uid e now =>
    by_cases hc : existsTokenID st t' = true
    · have heq : stepOp (.createTok t' h' uid e now) st = (.error createTokenStoreErr, st) := by
        simp [stepOp, createToken, hc]
      rw [heq]
      exact h
    · have hne : t' ≠ t := fun heq => hc (heq ▸ hex)
      have heq : stepOp (.createTok t' h' uid e now) st =
          (.ok (), st ++ [newRecord t' h' uid e now]) := by
        simp [stepOp, createToken, hc]
      rw [heq]
      exact revokedAll_append_ne t st _ h (by simp [newRecord, hne])
  | revokeTok t' now =>
    exact markRevoked_revokedAll t t' now st h
  | rotateTok o n h' uid e now =>
    simp only [stepOp]
    cases hrot : rotateToken st o n h' uid e now with
    | error er => simpa using h
    | ok st' =>
      obtain ⟨hfree, hst'⟩ := rotateToken_ok_inv st o n h' uid e now st' hrot
      have hne : n ≠ t := fun heq => by rw [heq] at hfree; rw [hex] at hfree; cases hfree
      subst hst'
      exact markRevoked_revokedAll t o now _
        (revokedAll_append_ne t st _ h (by simp [newRecord, hne]))
  | logout uid t' now =>
    exact markRevoked_revokedAll t t' now st h
  | refreshTok o n h' uid e now jwtOk uf ua =>
    cases jwtOk <;> cases uf <;> cases ua
    case true.true.true =>
      rw [show stepOp (AuthOp.refreshTok o n h' uid e now true true true) st =
            (match rotateToken st o n h' uid e now with
             | .ok st2 => ((Except.ok () : Except AppError Unit), st2)
             | .error _ => (Except.error invalidRefreshTokenErr, st)) from rfl]
      cases hrot : rotateToken st o n h' uid e now with
      | error er => exact h
      | ok st' =>
        obtain ⟨hfree, hst'⟩ := rotateToken_ok_inv st o n h' uid e now st' hrot
        have hne : n ≠ t := fun heq => by rw [heq] at hfree; rw [hex] at hfree; cases hfree
        subst hst'
        exact markRevoked_revokedAll t o now _
          (revokedAll_append_ne t st _ h (by simp [newRecord, hne]))
    all_goals exact h

/-- Helper: the invariant is preserved along any operation sequence. -/
theorem runOps_preserves_revokedAll (t : String) (ops : List AuthOp) (st : Store)
    (h : revokedAll t st = true) : revokedAll t (runOps ops st) = true := by
  induction ops generalizing st with
  | nil => simpa [runOps] using h
  | cons op rest ih =>
    rw [runOps, List.foldl_cons]
    exact ih _ (stepOp_preserves_revokedAll t op st h)

/-- C2 (amended): once every row for a token id is revoked — by a
successful rotation or by `Logout`/`Revoke` — no sequence of
{Create, Revoke, RotateToken, Logout, Refresh} operations ever makes it
usable again: the invariant persists, and every later `Refresh`
presenting that token id fails — with the generic `InvalidRefreshToken`
error, except that a deactivated account is reported as 403
`Account is deactivated` before the store is consulted. -/
theorem revoked_token_never_refreshes (t : String) (st : Store) (ops : List AuthOp)
    (h : revokedAll t st = true) :
    revokedAll t (runOps ops st) = true ∧
    ∀ (n nh uid : String) (e now : Int) (jwtOk userFound userActive : Bool),
      (stepOp (.refreshTok t n nh uid e now jwtOk userFound userActive) (runOps ops st)).1 =
        .error (if jwtOk && (userFound && !userActive)
                then accountDeactivatedErr else invalidRefreshTokenErr) := by
  have hrun := runOps_preserves_revokedAll t ops st h
  refine ⟨hrun, ?_⟩
  intro n nh uid e now jwtOk uf ua
  have hrot := rotateToken_revoked_fails t n nh uid e now _ hrun
  cases jwtOk <;> cases uf <;> cases ua <;> simp [stepOp, hrot]

/-- Counterexample input to C2 as stated: a table whose only row for
`"t0"` is revoked, and a `Refresh` presenting `"t0"` whose JWT validates
and whose user exists but is deactivated — the attempt does fail, but
with the 403 deactivation error, not with `InvalidRefreshToken` as the
claim demands of every such attempt. -/
theorem revoked_refresh_not_always_invalid_token :
    revokedAll "t0"
      [{ userID := "u0", tokenID := "t0", tokenHash := "h0", expiresAt := 100,
         isRevoked := true, createdAt := 0, revokedAt := some 1 }] = true ∧
    (stepOp (.refreshTok "t0" "t1" "h1" "u0" 200 50 true true false)
      [{ userID := "u0", tokenID := "t0", tokenHash := "h0", expiresAt := 100,
         isRevoked := true, createdAt := 0, revokedAt := some 1 }]).1 =
      .error accountDeactivatedErr ∧
    accountDeactivatedErr ≠ invalidRefreshTokenErr := by
  decide

/-- Witness for C2: after an unrelated create operation, a refresh
presenting the revoked id `"t0"` with a validating JWT and an active user
still fails with the generic error. -/
theorem revoked_token_never_refreshes_witness :
    revokedAll "t0"
      [{ userID := "u0", tokenID := "t0", tokenHash := "h0", expiresAt := 100,
         isRevoked := true, createdAt := 0, revokedAt := some 1 }] = true ∧
    (stepOp (.refreshTok "t0" "t1" "h1" "u0" 200 50 true true true)
      (runOps [AuthOp.createTok "t2" "h2" "u0" 300 60]
        [{ userID := "u0", tokenID := "t0", tokenHash := "h0", expiresAt := 100,
           isRevoked := true, createdAt := 0, revokedAt := some 1 }])).1 =
      .error invalidRefreshTokenErr :=
  ⟨by decide, by
    have hmain := (revoked_token_never_refreshes "t0"
      [{ userID := "u0", tokenID := "t0", tokenHash := "h0", expiresAt := 100,
         isRevoked := true, createdAt := 0, revokedAt := some 1 }]
      [AuthOp.createTok "t2" "h2" "u0" 300 60] (by decide)).2
      "t1" "h1" "u0" 200 50 true true true
    simpa using hmain⟩

/-- C3 (code behaviour at the failing inputs): `ValidatePassword` under
the default policy does not reject the immediately-repeated-block
password `"Ab1!Ab1!"` with the repeated-pattern reason, and does not
accept the fully policy-compliant password `"Xk7#mQ2v"` — both runs reach
the `regexp.MustCompile` call of `checkCommonPatterns` on a pattern whose
backreference RE2 rejects, so the checker itself panics.  (Passwords
caught by an earlier rule are still rejected with the specific reason:
`"short"` by the length rule.) -/
theorem validatePassword_panics_on_surviving_inputs :
    validatePassword defaultPasswordPolicy "Ab1!Ab1!" = .panicked "regexp: invalid escape sequence" ∧
    validatePassword defaultPasswordPolicy "Xk7#mQ2v" = .panicked "regexp: invalid escape sequence" ∧
    validatePassword defaultPasswordPolicy "short" =
      .policyError "password must be at least 8 characters long" := by
  refine ⟨by decide, by decide, by decide⟩

/-- Counterexample to C4 as stated: with one stored user, a login for an
unknown email fails with `ErrUserNotFound` (404, "User not found") while
a login for the stored email with a wrong password fails with
`ErrUnauthorized` (401, "Unauthorized") — two different error values, so
the two failure causes are distinguishable and account existence leaks. -/
theorem authenticate_errors_distinguishable :
    (authenticateUser demoDB [] demoJWT { email := "bob@x.com", password := "whatever1" }
      "tid01" 1000).1 = .error errUserNotFound ∧
    (authenticateUser demoDB [] demoJWT { email := "alice@x.com", password := "Wrong1pw" }
      "tid01" 1000).1 = .error errUnauthorized ∧
    errUserNotFound ≠ errUnauthorized := by
  refine ⟨by decide, by decide, by decide⟩

/-- C4 (amended): on a well-formed login request, `AuthenticateUser`
fails with `ErrUserNotFound` (404) when no user with the email exists and
with `ErrUnauthorized` (401) when the user exists but the password does
not match the stored hash; the two errors differ, so the failure causes
are not indistinguishable; in both cases the refresh-token store is
unchanged. -/
theorem authenticate_failure_errors (db : UserStore) (st : Store) (j : JWTManager)
    (req : LoginRequest) (tid : String) (now : Int)
    (hreq : loginRequestOk req = true) :
    (getByEmail db req.email = none →
      authenticateUser db st j req tid now = (.error errUserNotFound, st)) ∧
    (∀ u, getByEmail db req.email = some u → bcryptCompare u.password req.password = false →
      authenticateUser db st j req tid now = (.error errUnauthorized, st)) ∧
    errUserNotFound ≠ errUnauthorized := by
  refine ⟨?_, ?_, by decide⟩
  · intro hnone
    simp [authenticateUser, hreq, hnone]
  · intro u hu hpw
    simp [authenticateUser, hreq, hu, hpw]

/-- Witness for the amended statement of C4 at concrete inputs. -/
theorem authenticate_failure_errors_witness :
    loginRequestOk { email := "bob@x.com", password := "whatever1" } = true ∧
    getByEmail demoDB "bob@x.com" = none ∧
    authenticateUser demoDB [] demoJWT { email := "bob@x.com", password := "whatever1" }
      "tid01" 1000 = (.error errUserNotFound, []) :=
  ⟨by decide, by decide,
   (authenticate_failure_errors demoDB [] demoJWT
     { email := "bob@x.com", password := "whatever1" } "tid01" 1000 (by decide)).1 (by decide)⟩

/-- C7: a deactivated user presenting the correct password passes the
bcrypt check but `AuthenticateUser` then fails with the 403
`Account is deactivated` error; no token pair is issued and the
refresh-token store is returned unchanged (no record is created). -/
theorem authenticate_inactive_forbidden (db : UserStore) (st : Store) (j : JWTManager)
    (req : LoginRequest) (tid : String) (now : Int) (u : User)
    (hreq : loginRequestOk req = true)
    (hu : getByEmail db req.email = some u)
    (hpw : bcryptCompare u.password req.password = true)
    (hinactive : u.isActive = false) :
    authenticateUser db st j req tid now = (.error accountDeactivatedErr, st) := by
  simp [authenticateUser, hreq, hu, hpw, hinactive]

/-- Witness for C7: the demo account, deactivated, with its correct
password. -/
theorem authenticate_inactive_forbidden_witness :
    loginRequestOk { email := "alice@x.com", password := "Secur3!Pass" } = true ∧
    getByEmail [demoInactiveUser] "alice@x.com" = some demoInactiveUser ∧
    bcryptCompare demoInactiveUser.password "Secur3!Pass" = true ∧
    demoInactiveUser.isActive = false ∧
    authenticateUser [demoInactiveUser] [] demoJWT
      { email := "alice@x.com", password := "Secur3!Pass" } "tid01" 1000 =
      (.error accountDeactivatedErr, []) :=
  ⟨by decide, by decide, by decide, by decide,
   authenticate_inactive_forbidden [demoInactiveUser] [] demoJWT
     { email := "alice@x.com", password := "Secur3!Pass" } "tid01" 1000 demoInactiveUser
     (by decide) (by decide) (by decide) (by decide)⟩

/-- Helper: a `GetByID` hit is a stored row. -/
theorem getByID_mem (db : UserStore) (i : String) (u : User) (h : getByID db i = some u) :
    u ∈ db :=
  List.mem_of_find?_eq_some h

/-- C10: the `User` embedded in the `LoginResponse` of a successful
`AuthenticateUser` is exactly the stored row for the request email, and
the one embedded by a successful `RefreshToken` is exactly a stored row —
in both cases the bcrypt hash in the `password` field is carried along
uncleared; by contrast `CreateUser` and `GetUserByID` clear the
`password` field before returning.  (That the serialized form still
hides the field is the `json:"-"` struct tag, outside this model.) -/
theorem loginResponse_password_retention :
    (∀ (db : UserStore) (st : Store) (j : JWTManager) (req : LoginRequest) (tid : String)
        (now : Int) (resp : LoginResponse),
      (authenticateUser db st j req tid now).1 = .ok resp →
        getByEmail db req.email = some resp.user) ∧
    (∀ (db : UserStore) (st : Store) (j : JWTManager) (tok : SignedToken) (ntid : String)
        (now : Int) (resp : LoginResponse),
      (refreshTokenService db st j tok ntid now).1 = .ok resp → resp.user ∈ db) ∧
    (∀ (db : UserStore) (req : CreateUserRequest) (nid : String) (now : Int) (u : User),
      (createUser db req nid now).1 = .ok u → u.password = "") ∧
    (∀ (db : UserStore) (i : String) (u : User),
      getUserByID db i = .ok u → u.password = "") := by
  refine ⟨?_, ?_, ?_, ?_⟩
  · intro db st j req tid now resp h
    unfold authenticateUser at h
    repeat' split at h
    all_goals try simp_all
    all_goals repeat' split at h
    all_goals try simp_all
    all_goals (subst h; simp_all)
  · intro db st j tok ntid now resp h
    unfold refreshTokenService at h
    repeat' split at h
    all_goals try simp_all
    all_goals repeat' split at h
    all_goals try simp_all
    all_goals (subst h; exact getByID_mem _ _ _ (by assumption))
  · intro db req nid now u h
    unfold createUser at h
    repeat' split at h
    all_goals try simp_all
    all_goals (subst h; simp)
  · intro db i u h
    unfold getUserByID at h
    repeat' split at h
    all_goals try simp_all
    all_goals (subst h; simp)

/-- Extract a success value, with a fallback for the error case. -/
def okOr (x : Except AppError α) (dflt : α) : α :=
  match x with
  | .ok a => a
  | .error _ => dflt

/-- A placeholder response used only as the `okOr` fallback. -/
def demoDummyResp : LoginResponse :=
  { accessToken := signHS256 "" {}, refreshToken := signHS256 "" {},
    tokenType := "", expiresIn := 0, user := demoUser }

/-- A concrete well-formed registration request. -/
def demoCreateReq : CreateUserRequest :=
  { username := "alice", email := "alice@x.com", password := "Secur3Pass1" }

/-- The demo login call and its response. -/
def demoLoginOutcome : Except AppError LoginResponse × Store :=
  authenticateUser demoDB [] demoJWT { email := "alice@x.com", password := "Secur3!Pass" }
    "tid01" 1000

/-- The demo refresh call (presenting the token issued at login) and its
response. -/
def demoRefreshOutcome : Except AppError LoginResponse × Store :=
  refreshTokenService demoDB demoLoginOutcome.2 demoJWT
    (generateTokenPair demoJWT demoUser "tid01" 1000).refreshToken "tid02" 2000

/-- Witness for C10: a concrete successful login and refresh both embed
the stored row (hash intact), while `CreateUser` and `GetUserByID`
return a cleared password field. -/
theorem loginResponse_password_retention_witness :
    demoLoginOutcome.1 = .ok (okOr demoLoginOutcome.1 demoDummyResp) ∧
    getByEmail demoDB "alice@x.com" = some (okOr demoLoginOutcome.1 demoDummyResp).user ∧
    demoRefreshOutcome.1 = .ok (okOr demoRefreshOutcome.1 demoDummyResp) ∧
    (okOr demoRefreshOutcome.1 demoDummyResp).user ∈ demoDB ∧
    (createUser [] demoCreateReq "u-1" 0).1 =
      .ok (okOr (createUser [] demoCreateReq "u-1" 0).1 demoUser) ∧
    (okOr (createUser [] demoCreateReq "u-1" 0).1 demoUser).password = "" ∧
    (okOr (getUserByID demoDB demoUser.id) demoUser).password = "" :=
  ⟨rfl,
   loginResponse_password_retention.1 demoDB [] demoJWT
     { email := "alice@x.com", password := "Secur3!Pass" } "tid01" 1000
     (okOr demoLoginOutcome.1 demoDummyResp) rfl,
   rfl,
   loginResponse_password_retention.2.1 demoDB demoLoginOutcome.2 demoJWT
     (generateTokenPair demoJWT demoUser "tid01" 1000).refreshToken "tid02" 2000
     (okOr demoRefreshOutcome.1 demoDummyResp) rfl,
   rfl,
   loginResponse_password_retention.2.2.1 [] demoCreateReq "u-1" 0
     (okOr (createUser [] demoCreateReq "u-1" 0).1 demoUser) rfl,
   loginResponse_password_retention.2.2.2 demoDB demoUser.id
     (okOr (getUserByID demoDB demoUser.id) demoUser) rfl⟩

end GoBackend
